import Mathlib

/- Verification model of the solana-tracker repository.

   The embedding below translates the event-classification and
   significance-detection pipeline of the tracker into pure Lean
   definitions.  The primary variant modelled is the one built around
   day-keyed accumulator buckets, an alerted-mint set and a periodic
   sweep (file src/unnamed/part_003); the scan loop (also present in
   src/tracker.js) and the enhanced token-details resolver
   (src/unnamed/part_002) are modelled where claims refer to them.

   JavaScript numbers are modelled as rationals; JavaScript nullish /
   missing values as Option; JavaScript Sets as Finsets; the nested
   plain-object maps as functions into Option.  External effects
   (HTTP sources, the on-chain RPC, the clock) are passed in as
   explicit parameters holding the outcome the effect produced. -/

abbrev Addr := String
abbrev Mint := String
abbrev Day := Nat
abbrev Sig := String

/- JavaScript truthiness of a possibly-missing numeric value:
   `undefined`/`null` and `0` are falsy, every other number truthy. -/
def jsTruthy : Option ℚ → Bool
  | none => false
  | some q => decide (q ≠ 0)

/- Token identity as resolved by `getTokenDetails` in part_003:
   `{address, symbol, name, decimals, logoURI, verified}` (the logo URI
   carries no logic and is omitted). -/
structure TokenDetails where
  address : Mint
  symbol : String
  name : String
  decimals : ℕ
  verified : Bool
deriving DecidableEq, Repr

/- One per-day per-mint accumulator bucket of part_003
   (`dailyTokenStats[today][mint]`): the spread token details plus
   `{wallets, totalAmount, firstPrice, lastPrice}`. -/
structure Bucket where
  address : Mint
  symbol : String
  name : String
  decimals : ℕ
  verified : Bool
  wallets : Finset Addr
  totalAmount : ℚ
  firstPrice : Option ℚ
  lastPrice : Option ℚ
deriving DecidableEq

/- The mutable tracker state of part_003 that the transfer path touches:
   `dailyTokenStats` and `alertedTokens`. -/
structure TrackerState where
  stats : Day → Mint → Option Bucket
  alerted : Finset Mint

/- A coordinated-buying alert as emitted by part_003's
   `handleTokenTransfer`; we record the data the message interpolates
   that the claims talk about. -/
structure CoordAlert where
  mint : Mint
  walletCount : ℕ
  totalAmount : ℚ
deriving DecidableEq, Repr

/- The `info` field of a parsed transfer/transferChecked instruction:
   `{mint, tokenAmount, destination}`; `tokenAmount?.uiAmount` is
   collapsed into one optional rational. -/
structure TransferIx where
  mint : Mint
  uiAmount : Option ℚ
  destination : Addr
deriving DecidableEq, Repr

/- The bucket mutation of part_003 `handleTokenTransfer`, lines 158-176:
   fetch or freshly create the day's bucket for the mint, add the wallet
   and the amount, then set `lastPrice` and — when `firstPrice` is still
   falsy (`null` or `0`) — `firstPrice` to the current price. -/
def transferBucket (ix : TransferIx) (wallet : Addr) (info : TokenDetails)
    (currentPrice : ℚ) (prev : Option Bucket) : Bucket :=
  let bucket0 :=
    match prev with
    | some b => b
    | none =>
        { address := ix.mint, symbol := info.symbol, name := info.name,
          decimals := info.decimals, verified := info.verified,
          wallets := ∅, totalAmount := 0,
          firstPrice := none, lastPrice := none }
  let bucket1 :=
    { bucket0 with
        wallets := insert wallet bucket0.wallets,
        totalAmount := bucket0.totalAmount + ix.uiAmount.getD 0 }
  { bucket1 with
      lastPrice := some currentPrice,
      firstPrice :=
        if jsTruthy bucket1.firstPrice = true then bucket1.firstPrice
        else some currentPrice }

/- part_003 `handleTokenTransfer(parsedIx, wallet, tx)`, lines 151-198.
   The awaited `getTokenDetails(mint)` result is passed as `info` and the
   awaited `priceService.getPrice(mint)` result as `currentPrice`; `today`
   is the calendar day the clock produced.  Returns the updated state and
   the list of coordinated-buying alerts sent (empty or a singleton). -/
def handleTokenTransfer (ix : TransferIx) (wallet : Addr) (today : Day)
    (info : TokenDetails) (currentPrice : ℚ) (s : TrackerState) :
    TrackerState × List CoordAlert :=
  if ix.destination = wallet ∧ jsTruthy ix.uiAmount = true then
    let bucket2 := transferBucket ix wallet info currentPrice (s.stats today ix.mint)
    let stats2 : Day → Mint → Option Bucket :=
      fun d m => if d = today ∧ m = ix.mint then some bucket2 else s.stats d m
    if 3 ≤ bucket2.wallets.card ∧ ix.mint ∉ s.alerted then
      ({ stats := stats2, alerted := insert ix.mint s.alerted },
       [{ mint := ix.mint, walletCount := bucket2.wallets.card,
          totalAmount := bucket2.totalAmount }])
    else
      ({ stats := stats2, alerted := s.alerted }, [])
  else (s, [])

/- part_003 cleanup interval, lines 302-310: delete every day key that is
   neither today nor yesterday, then clear `alertedTokens`.  Days are
   modelled as naturals, yesterday being `today - 1`. -/
def sweep (today : Day) (s : TrackerState) : TrackerState :=
  { stats := fun d m => if d = today ∨ d = today - 1 then s.stats d m else none,
    alerted := ∅ }

/- A sequence of incoming-transfer events processed on one day: each
   entry carries the parsed instruction, the watched wallet it was
   addressed to, and the price `getPrice` returned during that call;
   the alerts of the individual calls are concatenated in order. -/
def runTransfers (today : Day) (info : TokenDetails)
    (steps : List (TransferIx × Addr × ℚ)) (s : TrackerState) :
    TrackerState × List CoordAlert :=
  steps.foldl
    (fun acc st =>
      ((handleTokenTransfer st.1 st.2.1 today info st.2.2 acc.1).1,
       acc.2 ++ (handleTokenTransfer st.1 st.2.1 today info st.2.2 acc.1).2))
    (s, [])

/- ---------- PriceService (part_003, lines 6-63) ---------- -/

/- One entry of `PriceService.cache`: `{price, timestamp}`. -/
structure PriceEntry where
  price : ℚ
  timestamp : ℕ
deriving DecidableEq, Repr

/- The price cache map of the `PriceService` instance. -/
structure PriceState where
  cache : Mint → Option PriceEntry

/- `this.cacheDuration = 300000` (milliseconds). -/
def cacheDuration : ℕ := 300000

/- The wrapped-SOL normalization at the top of `getPrice`: the wrapped
   mint is renamed to the key `SOL` before any cache access. -/
def normalizeMint (m : Mint) : Mint :=
  if m = "So11111111111111111111111111111111111111112" then "SOL" else m

/- The `for (const source of sources)` loop body: a source outcome is
   `none` when the call threw or the payload field was undefined, and
   `some p` when it produced the number `p`; the loop accepts the first
   truthy value.  Returns that value together with how many sources were
   invoked to reach it. -/
def firstTruthyIdx : List (Option ℚ) → Option (ℚ × ℕ)
  | [] => none
  | r :: rest =>
      if jsTruthy r = true then some (r.getD 0, 1)
      else (firstTruthyIdx rest).map fun pr => (pr.1, pr.2 + 1)

/- The source chain plus the final fallback line of `getPrice`
   (`return cached?.price || 0`): on success the cache is updated at
   `key` and the price returned; on exhaustion the fallback value is
   returned and the cache left untouched.  `cached?.price || 0` equals
   the cached entry's price when one exists (a cached `0` also yields
   `0`) and `0` otherwise, which is the `fallback` argument here. -/
def priceChain (sources : List (Option ℚ)) (now : ℕ) (s : PriceState)
    (key : Mint) (fallback : ℚ) : ℚ × PriceState × ℕ :=
  match firstTruthyIdx sources with
  | some (p, k) =>
      (p, ⟨fun m => if m = key then some ⟨p, now⟩ else s.cache m⟩, k)
  | none => (fallback, s, sources.length)

/- part_003 `PriceService.getPrice(mintAddress)`, lines 12-42.  The four
   HTTP sources are passed as their outcomes for this call, `now` is the
   clock value.  Result: the returned price, the updated service state,
   and the number of sources invoked. -/
def getPrice (sources : List (Option ℚ)) (now : ℕ) (s : PriceState)
    (mint : Mint) : ℚ × PriceState × ℕ :=
  let key := normalizeMint mint
  match s.cache key with
  | some c =>
      if now - c.timestamp < cacheDuration then (c.price, s, 0)
      else priceChain sources now s key c.price
  | none => priceChain sources now s key 0

/- ---------- Token details (part_003 lines 85-130, part_002 lines 50-93) ---------- -/

/- A record from the Jupiter strict token list. -/
structure JupToken where
  symbol : String
  name : String
  decimals : ℕ
deriving DecidableEq, Repr

/- The `accountInfo.value?.data?.parsed?.info` record of the on-chain
   lookup; each field may be absent. -/
structure ChainTokenInfo where
  symbol : Option String
  name : Option String
  decimals : Option ℕ
deriving DecidableEq, Repr

/- JavaScript `a || dflt` for an optional string (empty string is falsy). -/
def jsStrOr (a : Option String) (dflt : String) : String :=
  match a with
  | some v => if v = "" then dflt else v
  | none => dflt

/- JavaScript `a || dflt` for an optional natural (zero is falsy). -/
def jsNatOr (a : Option ℕ) (dflt : ℕ) : ℕ :=
  match a with
  | some v => if v = 0 then dflt else v
  | none => dflt

/- part_003 `getTokenDetails(mintAddress)`, lines 85-130.  `jup` is the
   outcome of the Jupiter strict-list request (`none` = threw), `chain`
   the outcome of `getParsedAccountInfo` (`none` = threw, `some none` =
   succeeded but `info` undefined). -/
def getTokenDetails (mint : Mint) (jup : Option JupToken)
    (chain : Option (Option ChainTokenInfo)) : TokenDetails :=
  if mint = "So11111111111111111111111111111111111111112" then
    { address := mint, symbol := "SOL", name := "Solana",
      decimals := 9, verified := true }
  else
    match jup with
    | some j =>
        { address := mint, symbol := j.symbol, name := j.name,
          decimals := j.decimals, verified := true }
    | none =>
        match chain with
        | some details =>
            { address := mint,
              symbol := jsStrOr (details.bind (·.symbol)) "TOKEN",
              name := jsStrOr (details.bind (·.name)) "Unknown Token",
              decimals := jsNatOr (details.bind (·.decimals)) 9,
              verified := false }
        | none =>
            { address := mint, symbol := "TOKEN", name := "Unknown Token",
              decimals := 9, verified := false }

/- Token identity produced by part_002's `EnhancedPriceService`; it has
   an `isScam` flag and no `verified` field. -/
structure TokenDetailsE where
  address : Mint
  symbol : String
  name : String
  decimals : ℕ
  isScam : Bool
deriving DecidableEq, Repr

/- `this.blueChips` of part_002. -/
def blueChips : Finset Mint :=
  {"So11111111111111111111111111111111111111112",
   "EPjFWdd5AufqSSqeM2qN1xzybapC8G4wEGGkZwyTDt1v"}

/- part_002 `EnhancedPriceService.getTokenDetails(mintAddress)`,
   lines 50-93: blue-chip table, then scam set, then the Jupiter strict
   list, then the placeholder. -/
def getTokenDetailsEnhanced (mint : Mint) (knownScams : Finset Mint)
    (jup : Option JupToken) : TokenDetailsE :=
  if mint ∈ blueChips then
    { address := mint,
      symbol :=
        if mint = "So11111111111111111111111111111111111111112" then "SOL"
        else "USDC",
      name :=
        if mint = "So11111111111111111111111111111111111111112" then "Solana"
        else "USD Coin",
      decimals := 9, isScam := false }
  else if mint ∈ knownScams then
    { address := mint, symbol := "SCAM", name := "Scam Token",
      decimals := 9, isScam := true }
  else
    match jup with
    | some j =>
        { address := mint, symbol := j.symbol, name := j.name,
          decimals := j.decimals, isScam := false }
    | none =>
        { address := mint, symbol := "UNKNOWN", name := "Unknown Token",
          decimals := 9, isScam := false }

/- ---------- Swap detection (part_003, lines 200-257) ---------- -/

/- One entry of `preTokenBalances` / `postTokenBalances`:
   `{mint, owner, uiTokenAmount}` with `uiTokenAmount?.uiAmount`
   collapsed into one optional rational. -/
structure TokenBalance where
  mint : Mint
  owner : Addr
  uiAmount : Option ℚ
deriving DecidableEq, Repr

/- `preBalances.find(b => b.mint === ... && b.owner === ...)` followed by
   `pre?.uiTokenAmount?.uiAmount || 0`. -/
def preLookupAmount (pre : List TokenBalance) (m : Mint) (wallet : Addr) : ℚ :=
  ((pre.find? fun q => decide (q.mint = m ∧ q.owner = wallet)).bind
    (·.uiAmount)).getD 0

/- Assignment `changes[mint] = v` on a JavaScript object modelled as an
   association list: overwrite in place when the key exists (keys keep
   their first-insertion position), append otherwise. -/
def objSet (l : List (Mint × ℚ)) (k : Mint) (v : ℚ) : List (Mint × ℚ) :=
  if l.any fun e => e.1 = k then
    l.map fun e => if e.1 = k then (k, v) else e
  else l ++ [(k, v)]

/- The first loop of part_003 `detectSwaps`: walk `postBalances`, keep
   entries owned by `wallet` whose balance delta against the matching
   pre entry is non-zero, recording `changes[mint] = diff`. -/
def swapChanges (pre post : List TokenBalance) (wallet : Addr) :
    List (Mint × ℚ) :=
  post.foldl
    (fun acc b =>
      if b.owner = wallet then
        let diff := b.uiAmount.getD 0 - preLookupAmount pre b.mint wallet
        if diff ≠ 0 then objSet acc b.mint diff else acc
      else acc)
    []

/- The classified swap: the strictly decreasing mint is sold, the
   strictly increasing one bought, amounts are absolute deltas. -/
structure SwapEvent where
  soldMint : Mint
  soldAmount : ℚ
  boughtMint : Mint
  boughtAmount : ℚ
deriving DecidableEq, Repr

/- The classification part of part_003 `detectSwaps`, lines 222-241:
   exactly two changed mints, opposite signs; `tokenIn` (sold) is the
   decreasing one, `tokenOut` (bought) the increasing one. -/
def detectSwapsCore (pre post : List TokenBalance) (wallet : Addr) :
    Option SwapEvent :=
  match swapChanges pre post wallet with
  | [(mintA, changeA), (mintB, changeB)] =>
      if 0 < changeA ∧ changeB < 0 then
        some { soldMint := mintB, soldAmount := |changeB|,
               boughtMint := mintA, boughtAmount := |changeA| }
      else if changeA < 0 ∧ 0 < changeB then
        some { soldMint := mintA, soldAmount := |changeA|,
               boughtMint := mintB, boughtAmount := |changeB| }
      else none
  | _ => none

/- A large-swap alert of part_003 `detectSwaps`, lines 243-252. -/
structure LargeSwapAlert where
  soldMint : Mint
  soldAmount : ℚ
  boughtMint : Mint
  boughtAmount : ℚ
  usdValue : ℚ
deriving DecidableEq, Repr

/- part_003 `detectSwaps` including the valuation and threshold, lines
   225-252: in both direction branches `usdValue` is the absolute sold
   delta times the price of the sold mint (`priceOf` is what
   `priceService.getPrice` returned for each mint, `0` when unknown);
   `if (usdValue < 5000) return;` suppresses the alert. -/
def detectSwapsAlert (pre post : List TokenBalance) (wallet : Addr)
    (priceOf : Mint → ℚ) : Option LargeSwapAlert :=
  (detectSwapsCore pre post wallet).bind fun sw =>
    let usd := sw.soldAmount * priceOf sw.soldMint
    if usd < 5000 then none
    else some { soldMint := sw.soldMint, soldAmount := sw.soldAmount,
                boughtMint := sw.boughtMint, boughtAmount := sw.boughtAmount,
                usdValue := usd }

/- Modelled from the spec: the change set of section 4.4 ("the set of
   mints whose balance owned by `wallet` changed by a non-zero amount"),
   restricted to mints carrying an entry in the post snapshot — the
   restriction the code imposes.  With no duplicate post entries this is
   what `swapChanges` computes. -/
def changedOf (pre post : List TokenBalance) (wallet : Addr) :
    List (Mint × ℚ) :=
  post.filterMap fun b =>
    if b.owner = wallet then
      let diff := b.uiAmount.getD 0 - preLookupAmount pre b.mint wallet
      if diff ≠ 0 then some (b.mint, diff) else none
    else none

/- Modelled from the spec: the classifier of section 4.4 — one Swap
   exactly when the change set has exactly two mints of opposite signs;
   the decreasing mint is sold with the absolute decrease as amount, the
   increasing one bought. -/
def classifySwapSpec (pre post : List TokenBalance) (wallet : Addr) :
    Option SwapEvent :=
  match changedOf pre post wallet with
  | [(mintA, changeA), (mintB, changeB)] =>
      if changeA < 0 ∧ 0 < changeB then
        some { soldMint := mintA, soldAmount := -changeA,
               boughtMint := mintB, boughtAmount := changeB }
      else if 0 < changeA ∧ changeB < 0 then
        some { soldMint := mintB, soldAmount := -changeB,
               boughtMint := mintA, boughtAmount := changeA }
      else none
  | _ => none

/- Modelled from the spec (claim-side semantics for the counterexample):
   the balance a snapshot assigns to a mint for a wallet, a missing
   entry meaning balance zero on either side. -/
def snapshotBalance (snap : List TokenBalance) (m : Mint) (wallet : Addr) : ℚ :=
  ((snap.find? fun q => decide (q.mint = m ∧ q.owner = wallet)).bind
    (·.uiAmount)).getD 0

/- Modelled from the spec (claim-side semantics for the counterexample):
   the set of mints owned by `wallet` whose balance differs between the
   two snapshots, pre-only mints included. -/
def changedMintsSym (pre post : List TokenBalance) (wallet : Addr) :
    Finset Mint :=
  ((pre ++ post).filter fun b => decide (b.owner = wallet)).foldr
    (fun b acc =>
      if snapshotBalance post b.mint wallet ≠ snapshotBalance pre b.mint wallet
      then insert b.mint acc else acc)
    ∅

/- Modelled from the spec (claim C4's wording): USD value is
   `abs(amount) * price` of the sold leg when its price is known,
   falling back to the bought leg, `none` when neither is known. -/
def claimSwapUsd (sw : SwapEvent) (priceOpt : Mint → Option ℚ) : Option ℚ :=
  match priceOpt sw.soldMint with
  | some p => some (|sw.soldAmount| * p)
  | none => (priceOpt sw.boughtMint).map fun p => |sw.boughtAmount| * p

/- ---------- Deduplicating scan loop (part_003 lines 260-279, tracker.js lines 105-129) ---------- -/

/- One iteration of the signature loop in `checkWalletTransactions`:
   skip a seen signature; otherwise attempt the downstream step
   (`getParsedTransaction` + `analyzeTransaction`), and only when it
   completes without throwing add the signature to `processedTxs`.
   `process sig = true` means the downstream step succeeded.  The second
   component records every signature on which downstream processing was
   attempted, in order. -/
def scanStep (process : Sig → Bool) (acc : Finset Sig × List Sig)
    (sig : Sig) : Finset Sig × List Sig :=
  if sig ∈ acc.1 then acc
  else if process sig then (insert sig acc.1, acc.2 ++ [sig])
  else (acc.1, acc.2 ++ [sig])

/- part_003 `checkWalletTransactions` signature loop, lines 265-275
   (identically tracker.js lines 112-125): fold the loop body over the
   listed signatures starting from the current seen-set. -/
def scanOnce (process : Sig → Bool) (sigs : List Sig)
    (seen : Finset Sig) : Finset Sig × List Sig :=
  sigs.foldl (scanStep process) (seen, [])

/- ---------- Concrete states used by witnesses ---------- -/

def emptyTracker : TrackerState :=
  { stats := fun _ _ => none, alerted := ∅ }

def sampleBucket : Bucket :=
  { address := "M", symbol := "TOK", name := "Token", decimals := 9,
    verified := true, wallets := {"W"}, totalAmount := 10,
    firstPrice := some 1, lastPrice := some 2 }

def sampleTracker : TrackerState :=
  { stats := fun d m => if d = 5 ∧ m = "M" then some sampleBucket else none,
    alerted := {"M"} }

def emptyPriceState : PriceState := ⟨fun _ => none⟩

def stalePriceState : PriceState :=
  ⟨fun m => if m = "M" then some ⟨10, 0⟩ else none⟩

/- ---------- General lemmas about the embedding ---------- -/

theorem jsTruthy_eq_false (a : Option ℚ) :
    jsTruthy a = false ↔ a = none ∨ a = some 0 := by
  cases a with
  | none => simp [jsTruthy]
  | some q => simp [jsTruthy]

theorem transferBucket_none (ix : TransferIx) (w : Addr) (info : TokenDetails)
    (p : ℚ) :
    transferBucket ix w info p none =
      { address := ix.mint, symbol := info.symbol, name := info.name,
        decimals := info.decimals, verified := info.verified,
        wallets := {w}, totalAmount := ix.uiAmount.getD 0,
        firstPrice := some p, lastPrice := some p } := by
  simp [transferBucket, jsTruthy]

theorem transferBucket_some (ix : TransferIx) (w : Addr) (info : TokenDetails)
    (p : ℚ) (b : Bucket) :
    transferBucket ix w info p (some b) =
      { b with
          wallets := insert w b.wallets,
          totalAmount := b.totalAmount + ix.uiAmount.getD 0,
          lastPrice := some p,
          firstPrice :=
            if jsTruthy b.firstPrice = true then b.firstPrice else some p } := by
  simp [transferBucket]

theorem handleTokenTransfer_pos (ix : TransferIx) (wallet : Addr) (today : Day)
    (info : TokenDetails) (p : ℚ) (s : TrackerState)
    (hg : ix.destination = wallet) (ht : jsTruthy ix.uiAmount = true) :
    handleTokenTransfer ix wallet today info p s =
      ({ stats := fun d m =>
            if d = today ∧ m = ix.mint
            then some (transferBucket ix wallet info p (s.stats today ix.mint))
            else s.stats d m,
         alerted :=
            if 3 ≤ (transferBucket ix wallet info p (s.stats today ix.mint)).wallets.card
                ∧ ix.mint ∉ s.alerted
            then insert ix.mint s.alerted else s.alerted },
       if 3 ≤ (transferBucket ix wallet info p (s.stats today ix.mint)).wallets.card
          ∧ ix.mint ∉ s.alerted
       then [{ mint := ix.mint,
               walletCount := (transferBucket ix wallet info p (s.stats today ix.mint)).wallets.card,
               totalAmount := (transferBucket ix wallet info p (s.stats today ix.mint)).totalAmount }]
       else []) := by
  rw [handleTokenTransfer, if_pos (And.intro hg ht)]
  simp only []
  split <;> rfl

theorem handleTokenTransfer_neg (ix : TransferIx) (wallet : Addr) (today : Day)
    (info : TokenDetails) (p : ℚ) (s : TrackerState)
    (h : ¬(ix.destination = wallet ∧ jsTruthy ix.uiAmount = true)) :
    handleTokenTransfer ix wallet today info p s = (s, []) := by
  rw [handleTokenTransfer, if_neg h]

theorem jsTruthy_some (q : ℚ) : jsTruthy (some q) = true ↔ q ≠ 0 := by
  simp [jsTruthy]

theorem if_else_collapse {α : Sort _} (C : Prop) [Decidable C] (x y z : α) :
    (if C then x else (if C then y else z)) = if C then x else z := by
  by_cases h : C <;> simp [h]

/- A three-transfer run of part_003 `handleTokenTransfer` on a mint with
   no bucket yet and not alerted: no alert on the first two distinct
   wallets, exactly one coordinated-buying alert at the third, the mint
   entering `alertedTokens`, the bucket accumulating all three wallets
   and amounts. -/
theorem run3_alert (today : Day) (m : Mint) (w1 w2 w3 : Addr)
    (a1 a2 a3 p1 p2 p3 : ℚ) (info : TokenDetails) (s0 : TrackerState)
    (h12 : w1 ≠ w2) (h13 : w1 ≠ w3) (h23 : w2 ≠ w3)
    (ha1 : a1 ≠ 0) (ha2 : a2 ≠ 0) (ha3 : a3 ≠ 0)
    (hs : s0.stats today m = none) (hal : m ∉ s0.alerted) :
    ∃ fp : Option ℚ,
      handleTokenTransfer ⟨m, some a1, w1⟩ w1 today info p1 s0 =
        ({ stats := fun d mm =>
              if d = today ∧ mm = m
              then some { address := m, symbol := info.symbol, name := info.name,
                          decimals := info.decimals, verified := info.verified,
                          wallets := {w1}, totalAmount := a1,
                          firstPrice := some p1, lastPrice := some p1 }
              else s0.stats d mm,
           alerted := s0.alerted }, []) ∧
      handleTokenTransfer ⟨m, some a2, w2⟩ w2 today info p2
          (handleTokenTransfer ⟨m, some a1, w1⟩ w1 today info p1 s0).1 =
        ({ stats := fun d mm =>
              if d = today ∧ mm = m
              then some { address := m, symbol := info.symbol, name := info.name,
                          decimals := info.decimals, verified := info.verified,
                          wallets := {w2, w1}, totalAmount := a1 + a2,
                          firstPrice := if jsTruthy (some p1) = true then some p1 else some p2,
                          lastPrice := some p2 }
              else s0.stats d mm,
           alerted := s0.alerted }, []) ∧
      handleTokenTransfer ⟨m, some a3, w3⟩ w3 today info p3
          (handleTokenTransfer ⟨m, some a2, w2⟩ w2 today info p2
            (handleTokenTransfer ⟨m, some a1, w1⟩ w1 today info p1 s0).1).1 =
        ({ stats := fun d mm =>
              if d = today ∧ mm = m
              then some { address := m, symbol := info.symbol, name := info.name,
                          decimals := info.decimals, verified := info.verified,
                          wallets := {w3, w2, w1}, totalAmount := a1 + a2 + a3,
                          firstPrice := fp, lastPrice := some p3 }
              else s0.stats d mm,
           alerted := insert m s0.alerted },
         [{ mint := m, walletCount := 3, totalAmount := a1 + a2 + a3 }]) := by
  have t1 : jsTruthy (some a1) = true := (jsTruthy_some a1).2 ha1
  have t2 : jsTruthy (some a2) = true := (jsTruthy_some a2).2 ha2
  have t3 : jsTruthy (some a3) = true := (jsTruthy_some a3).2 ha3
  have h21 : w2 ≠ w1 := Ne.symm h12
  have h31 : w3 ≠ w1 := Ne.symm h13
  have h32 : w3 ≠ w2 := Ne.symm h23
  refine ⟨if jsTruthy (if jsTruthy (some p1) = true then some p1 else some p2) = true
          then (if jsTruthy (some p1) = true then some p1 else some p2) else some p3,
          ?_, ?_, ?_⟩
  · rw [handleTokenTransfer_pos _ _ _ _ _ _ rfl t1]
    simp [hs, transferBucket_none, hal]
  · rw [handleTokenTransfer_pos _ _ _ _ _ _ rfl t2]
    rw [handleTokenTransfer_pos _ _ _ _ _ _ rfl t1]
    simp [hs, transferBucket_none, transferBucket_some, if_else_collapse,
          Finset.card_insert_of_not_mem, h21, hal]
  · rw [handleTokenTransfer_pos _ _ _ _ _ _ rfl t3]
    rw [handleTokenTransfer_pos _ _ _ _ _ _ rfl t2]
    rw [handleTokenTransfer_pos _ _ _ _ _ _ rfl t1]
    simp [hs, transferBucket_none, transferBucket_some, if_else_collapse,
          Finset.card_insert_of_not_mem, h21, h31, h32, hal]

theorem runTransfers_shift (today : Day) (info : TokenDetails)
    (l : List (TransferIx × Addr × ℚ)) (s : TrackerState)
    (out : List CoordAlert) :
    l.foldl
      (fun acc st =>
        ((handleTokenTransfer st.1 st.2.1 today info st.2.2 acc.1).1,
         acc.2 ++ (handleTokenTransfer st.1 st.2.1 today info st.2.2 acc.1).2))
      (s, out) =
      ((runTransfers today info l s).1,
       out ++ (runTransfers today info l s).2) := by
  induction l generalizing s out with
  | nil => simp [runTransfers]
  | cons t rest ih =>
      rw [List.foldl_cons]
      dsimp only
      rw [ih]
      have hr : runTransfers today info (t :: rest) s =
          ((runTransfers today info rest
              (handleTokenTransfer t.1 t.2.1 today info t.2.2 s).1).1,
           [] ++ (handleTokenTransfer t.1 t.2.1 today info t.2.2 s).2 ++
             (runTransfers today info rest
               (handleTokenTransfer t.1 t.2.1 today info t.2.2 s).1).2) := by
        rw [runTransfers, List.foldl_cons]
        dsimp only
        rw [ih]
      rw [hr]
      simp [List.append_assoc]

theorem runTransfers_nil (today : Day) (info : TokenDetails)
    (s : TrackerState) : runTransfers today info [] s = (s, []) := rfl

theorem runTransfers_cons (today : Day) (info : TokenDetails)
    (t : TransferIx × Addr × ℚ) (rest : List (TransferIx × Addr × ℚ))
    (s : TrackerState) :
    runTransfers today info (t :: rest) s =
      ((runTransfers today info rest
          (handleTokenTransfer t.1 t.2.1 today info t.2.2 s).1).1,
       (handleTokenTransfer t.1 t.2.1 today info t.2.2 s).2 ++
         (runTransfers today info rest
           (handleTokenTransfer t.1 t.2.1 today info t.2.2 s).1).2) := by
  rw [runTransfers, List.foldl_cons]
  dsimp only
  rw [runTransfers_shift]
  simp

/-- C1: in a day-window where incoming transfers of one mint arrive from
distinct wallets W1..W5, exactly one coordinated-buy alert is emitted for
that mint: none after the first two transfers, exactly one after the
third (the transfer raising the distinct-wallet count from 2 to 3, with
the default minimum 3), still exactly that one after all five; the mint
is then in the alerted set, the bucket is not cleared and keeps
accumulating wallets and volume, and the transfers from W4 and W5
produce no further alert in the window. -/
theorem coordinated_buy_exactly_once
    (today : Day) (m : Mint) (w1 w2 w3 w4 w5 : Addr)
    (a1 a2 a3 a4 a5 p1 p2 p3 p4 p5 : ℚ) (info : TokenDetails)
    (s0 : TrackerState)
    (hw : ([w1, w2, w3, w4, w5] : List Addr).Nodup)
    (ha1 : a1 ≠ 0) (ha2 : a2 ≠ 0) (ha3 : a3 ≠ 0) (ha4 : a4 ≠ 0) (ha5 : a5 ≠ 0)
    (hs : s0.stats today m = none) (hal : m ∉ s0.alerted) :
    (runTransfers today info
      [(⟨m, some a1, w1⟩, w1, p1), (⟨m, some a2, w2⟩, w2, p2)] s0).2 = [] ∧
    (runTransfers today info
      [(⟨m, some a1, w1⟩, w1, p1), (⟨m, some a2, w2⟩, w2, p2),
       (⟨m, some a3, w3⟩, w3, p3)] s0).2 =
      [{ mint := m, walletCount := 3, totalAmount := a1 + a2 + a3 }] ∧
    (runTransfers today info
      [(⟨m, some a1, w1⟩, w1, p1), (⟨m, some a2, w2⟩, w2, p2),
       (⟨m, some a3, w3⟩, w3, p3), (⟨m, some a4, w4⟩, w4, p4),
       (⟨m, some a5, w5⟩, w5, p5)] s0).2 =
      [{ mint := m, walletCount := 3, totalAmount := a1 + a2 + a3 }] ∧
    m ∈ (runTransfers today info
      [(⟨m, some a1, w1⟩, w1, p1), (⟨m, some a2, w2⟩, w2, p2),
       (⟨m, some a3, w3⟩, w3, p3)] s0).1.alerted ∧
    (∃ b, (runTransfers today info
      [(⟨m, some a1, w1⟩, w1, p1), (⟨m, some a2, w2⟩, w2, p2),
       (⟨m, some a3, w3⟩, w3, p3), (⟨m, some a4, w4⟩, w4, p4),
       (⟨m, some a5, w5⟩, w5, p5)] s0).1.stats today m = some b ∧
      b.wallets = {w5, w4, w3, w2, w1} ∧
      b.totalAmount = a1 + a2 + a3 + a4 + a5) := by
  simp only [List.nodup_cons, List.mem_cons, List.mem_singleton,
    List.not_mem_nil, or_false, not_or, List.nodup_nil, and_true] at hw
  obtain ⟨⟨h12, h13, h14, h15⟩, ⟨h23, h24, h25⟩, ⟨h34, h35⟩, h45⟩ := hw
  have t4 : jsTruthy (some a4) = true := (jsTruthy_some a4).2 ha4
  have t5 : jsTruthy (some a5) = true := (jsTruthy_some a5).2 ha5
  obtain ⟨fp3, e1, e2, e3⟩ :=
    run3_alert today m w1 w2 w3 a1 a2 a3 p1 p2 p3 info s0
      h12 h13 h23 ha1 ha2 ha3 hs hal
  have e4 : handleTokenTransfer ⟨m, some a4, w4⟩ w4 today info p4
      (handleTokenTransfer ⟨m, some a3, w3⟩ w3 today info p3
        (handleTokenTransfer ⟨m, some a2, w2⟩ w2 today info p2
          (handleTokenTransfer ⟨m, some a1, w1⟩ w1 today info p1 s0).1).1).1 =
      ({ stats := fun d mm =>
            if d = today ∧ mm = m
            then some { address := m, symbol := info.symbol, name := info.name,
                        decimals := info.decimals, verified := info.verified,
                        wallets := insert w4 {w3, w2, w1},
                        totalAmount := a1 + a2 + a3 + a4,
                        firstPrice := if jsTruthy fp3 = true then fp3 else some p4,
                        lastPrice := some p4 }
            else s0.stats d mm,
         alerted := insert m s0.alerted }, []) := by
    rw [handleTokenTransfer_pos _ _ _ _ _ _ rfl t4, e3]
    simp [transferBucket_some, if_else_collapse]
  have e5 : handleTokenTransfer ⟨m, some a5, w5⟩ w5 today info p5
      (handleTokenTransfer ⟨m, some a4, w4⟩ w4 today info p4
        (handleTokenTransfer ⟨m, some a3, w3⟩ w3 today info p3
          (handleTokenTransfer ⟨m, some a2, w2⟩ w2 today info p2
            (handleTokenTransfer ⟨m, some a1, w1⟩ w1 today info p1 s0).1).1).1).1 =
      ({ stats := fun d mm =>
            if d = today ∧ mm = m
            then some { address := m, symbol := info.symbol, name := info.name,
                        decimals := info.decimals, verified := info.verified,
                        wallets := {w5, w4, w3, w2, w1},
                        totalAmount := a1 + a2 + a3 + a4 + a5,
                        firstPrice :=
                          if jsTruthy (if jsTruthy fp3 = true then fp3 else some p4) = true
                          then (if jsTruthy fp3 = true then fp3 else some p4)
                          else some p5,
                        lastPrice := some p5 }
            else s0.stats d mm,
         alerted := insert m s0.alerted }, []) := by
    rw [handleTokenTransfer_pos _ _ _ _ _ _ rfl t5, e4]
    simp [transferBucket_some, if_else_collapse]
  refine ⟨?_, ?_, ?_, ?_, ?_⟩
  · simp only [runTransfers_cons, runTransfers_nil]
    rw [e2, e1]
    simp
  · simp only [runTransfers_cons, runTransfers_nil]
    rw [e3, e2, e1]
    simp
  · simp only [runTransfers_cons, runTransfers_nil]
    rw [e5, e4, e3, e2, e1]
    simp
  · simp only [runTransfers_cons, runTransfers_nil]
    rw [e3]
    simp
  · simp only [runTransfers_cons, runTransfers_nil]
    rw [e5]
    refine ⟨_, if_pos ⟨rfl, rfl⟩, rfl, rfl⟩

/-- Witness for C1: five distinct wallets buying mint M on day 0. -/
theorem coordinated_buy_exactly_once_witness :
    (runTransfers 0 ⟨"M", "TOK", "Token", 9, true⟩
      [(⟨"M", some 1, "W1"⟩, "W1", 2), (⟨"M", some 1, "W2"⟩, "W2", 2)]
      emptyTracker).2 = [] ∧
    (runTransfers 0 ⟨"M", "TOK", "Token", 9, true⟩
      [(⟨"M", some 1, "W1"⟩, "W1", 2), (⟨"M", some 1, "W2"⟩, "W2", 2),
       (⟨"M", some 1, "W3"⟩, "W3", 2)] emptyTracker).2 =
      [{ mint := "M", walletCount := 3, totalAmount := 1 + 1 + 1 }] ∧
    (runTransfers 0 ⟨"M", "TOK", "Token", 9, true⟩
      [(⟨"M", some 1, "W1"⟩, "W1", 2), (⟨"M", some 1, "W2"⟩, "W2", 2),
       (⟨"M", some 1, "W3"⟩, "W3", 2), (⟨"M", some 1, "W4"⟩, "W4", 2),
       (⟨"M", some 1, "W5"⟩, "W5", 2)] emptyTracker).2 =
      [{ mint := "M", walletCount := 3, totalAmount := 1 + 1 + 1 }] ∧
    "M" ∈ (runTransfers 0 ⟨"M", "TOK", "Token", 9, true⟩
      [(⟨"M", some 1, "W1"⟩, "W1", 2), (⟨"M", some 1, "W2"⟩, "W2", 2),
       (⟨"M", some 1, "W3"⟩, "W3", 2)] emptyTracker).1.alerted ∧
    (∃ b, (runTransfers 0 ⟨"M", "TOK", "Token", 9, true⟩
      [(⟨"M", some 1, "W1"⟩, "W1", 2), (⟨"M", some 1, "W2"⟩, "W2", 2),
       (⟨"M", some 1, "W3"⟩, "W3", 2), (⟨"M", some 1, "W4"⟩, "W4", 2),
       (⟨"M", some 1, "W5"⟩, "W5", 2)] emptyTracker).1.stats 0 "M" = some b ∧
      b.wallets = {"W5", "W4", "W3", "W2", "W1"} ∧
      b.totalAmount = 1 + 1 + 1 + 1 + 1) :=
  coordinated_buy_exactly_once 0 "M" "W1" "W2" "W3" "W4" "W5"
    1 1 1 1 1 2 2 2 2 2 ⟨"M", "TOK", "Token", 9, true⟩ emptyTracker
    (by decide) (by norm_num) (by norm_num) (by norm_num) (by norm_num)
    (by norm_num) rfl (Finset.not_mem_empty _)

/-- C10: a transfer instruction whose destination is not the watched
wallet, or whose `tokenAmount.uiAmount` is zero or missing, leaves the
whole tracker state unchanged and emits no alert, so it can never
contribute to a coordinated-buy alert. -/
theorem transfer_guard_no_effect (ix : TransferIx) (wallet : Addr)
    (today : Day) (info : TokenDetails) (p : ℚ) (s : TrackerState)
    (h : ix.destination ≠ wallet ∨ ix.uiAmount = none ∨ ix.uiAmount = some 0) :
    handleTokenTransfer ix wallet today info p s = (s, []) := by
  apply handleTokenTransfer_neg
  rintro ⟨hd, ht⟩
  rcases h with h | h
  · exact h hd
  · rw [(jsTruthy_eq_false ix.uiAmount).2 h] at ht
    exact Bool.noConfusion ht

/-- Witness for C10: a transfer addressed to a different wallet. -/
theorem transfer_guard_no_effect_witness :
    handleTokenTransfer ⟨"M", some 5, "X"⟩ "W" 0
      ⟨"M", "TOK", "Token", 9, true⟩ 1 sampleTracker = (sampleTracker, []) :=
  transfer_guard_no_effect _ _ _ _ _ _ (Or.inl (by decide))

/-- C9: the distinct-wallet set of a bucket is monotone over the bucket's
life: a transfer step (alerting or not) only ever adds wallets to a
bucket's set, and the sweep either keeps a bucket intact or removes it
whole — no operation removes wallets from a live bucket. -/
theorem distinct_wallets_monotone (ix : TransferIx) (wallet : Addr)
    (today sweepDay : Day) (info : TokenDetails) (p : ℚ) (s : TrackerState) :
    (∀ d mm b, s.stats d mm = some b →
      ∃ c, (handleTokenTransfer ix wallet today info p s).1.stats d mm = some c ∧
        b.wallets ⊆ c.wallets) ∧
    (∀ d mm b c, s.stats d mm = some b →
      (sweep sweepDay s).stats d mm = some c → b.wallets ⊆ c.wallets) := by
  constructor
  · intro d mm b hb
    by_cases hg : ix.destination = wallet ∧ jsTruthy ix.uiAmount = true
    · rw [handleTokenTransfer_pos _ _ _ _ _ _ hg.1 hg.2]
      by_cases hdm : d = today ∧ mm = ix.mint
      · refine ⟨transferBucket ix wallet info p (s.stats today ix.mint),
          by dsimp only; rw [if_pos hdm], ?_⟩
        obtain ⟨hd, hm⟩ := hdm
        subst hd
        subst hm
        rw [hb, transferBucket_some]
        exact Finset.subset_insert _ _
      · exact ⟨b, by dsimp only; rw [if_neg hdm]; exact hb,
          Finset.Subset.refl _⟩
    · rw [handleTokenTransfer_neg _ _ _ _ _ _ hg]
      exact ⟨b, hb, Finset.Subset.refl _⟩
  · intro d mm b c hb hc
    by_cases hd : d = sweepDay ∨ d = sweepDay - 1
    · have hc' : s.stats d mm = some c := by
        rw [show (sweep sweepDay s).stats d mm =
              (if d = sweepDay ∨ d = sweepDay - 1 then s.stats d mm else none)
            from rfl, if_pos hd] at hc
        exact hc
      rw [hb] at hc'
      cases hc'
      exact Finset.Subset.refl _
    · rw [show (sweep sweepDay s).stats d mm =
            (if d = sweepDay ∨ d = sweepDay - 1 then s.stats d mm else none)
          from rfl, if_neg hd] at hc
      exact Option.noConfusion hc

/-- Witness for C9: a transfer from a second wallet into an existing
bucket keeps the previous wallet set inside the new one. -/
theorem distinct_wallets_monotone_witness :
    ∃ c, (handleTokenTransfer ⟨"M", some 1, "W2"⟩ "W2" 5
      ⟨"M", "TOK", "Token", 9, true⟩ 1 sampleTracker).1.stats 5 "M" = some c ∧
      sampleBucket.wallets ⊆ c.wallets :=
  (distinct_wallets_monotone ⟨"M", some 1, "W2"⟩ "W2" 5 7
    ⟨"M", "TOK", "Token", 9, true⟩ 1 sampleTracker).1 5 "M" sampleBucket
    (by decide)

/-- C8: after the sweep runs, every bucket whose day is neither today nor
yesterday is absent (in particular a bucket for day D is gone once the
sweep runs on day D+2), the alerted set is empty, and a previously
alerted mint re-qualifies: three distinct wallets buying it after the
sweep emit a coordinated-buy alert again. -/
theorem sweep_eviction (s : TrackerState) (today : Day) :
    (∀ d mm, d ≠ today → d ≠ today - 1 → (sweep today s).stats d mm = none) ∧
    (sweep today s).alerted = ∅ ∧
    (∀ dd mm, (sweep (dd + 2) s).stats dd mm = none) ∧
    (∀ d m w1 w2 w3 a1 a2 a3 p1 p2 p3 info,
      w1 ≠ w2 → w1 ≠ w3 → w2 ≠ w3 → a1 ≠ 0 → a2 ≠ 0 → a3 ≠ 0 →
      (sweep today s).stats d m = none →
      (runTransfers d info
        [(⟨m, some a1, w1⟩, w1, p1), (⟨m, some a2, w2⟩, w2, p2),
         (⟨m, some a3, w3⟩, w3, p3)] (sweep today s)).2 =
        [{ mint := m, walletCount := 3, totalAmount := a1 + a2 + a3 }]) := by
  refine ⟨?_, rfl, ?_, ?_⟩
  · intro d mm h1 h2
    exact if_neg (by simp [h1, h2])
  · intro dd mm
    show (if dd = dd + 2 ∨ dd = dd + 2 - 1 then s.stats dd mm else none) = none
    exact if_neg (by rintro (h | h) <;> simp at h)
  · intro d m w1 w2 w3 a1 a2 a3 p1 p2 p3 info h12 h13 h23 ha1 ha2 ha3 hmiss
    obtain ⟨fp, e1, e2, e3⟩ :=
      run3_alert d m w1 w2 w3 a1 a2 a3 p1 p2 p3 info (sweep today s)
        h12 h13 h23 ha1 ha2 ha3 hmiss (Finset.not_mem_empty _)
    simp only [runTransfers_cons, runTransfers_nil]
    rw [e3, e2, e1]
    simp

/-- Witness for C8: the sample state has a bucket for day 5 and an
alerted mint M; a sweep on day 7 evicts the bucket, empties the alerted
set, and M alerts again for three fresh wallets on day 0. -/
theorem sweep_eviction_witness :
    (sweep 7 sampleTracker).stats 5 "M" = none ∧
    (sweep 7 sampleTracker).alerted = ∅ ∧
    (sweep (5 + 2) sampleTracker).stats 5 "M" = none ∧
    (runTransfers 0 ⟨"M", "TOK", "Token", 9, true⟩
      [(⟨"M", some 1, "W1"⟩, "W1", 2), (⟨"M", some 1, "W2"⟩, "W2", 2),
       (⟨"M", some 1, "W3"⟩, "W3", 2)] (sweep 7 sampleTracker)).2 =
      [{ mint := "M", walletCount := 3, totalAmount := 1 + 1 + 1 }] :=
  ⟨(sweep_eviction sampleTracker 7).1 5 "M" (by decide) (by decide),
   (sweep_eviction sampleTracker 7).2.1,
   (sweep_eviction sampleTracker 7).2.2.1 5 "M",
   (sweep_eviction sampleTracker 7).2.2.2 0 "M" "W1" "W2" "W3" 1 1 1 2 2 2
     ⟨"M", "TOK", "Token", 9, true⟩ (by decide) (by decide) (by decide)
     (by norm_num) (by norm_num) (by norm_num) rfl⟩

theorem scanStep_shift (p : Sig → Bool) (a : Finset Sig) (b : List Sig)
    (x : Sig) :
    scanStep p (a, b) x = ((scanStep p (a, []) x).1, b ++ (scanStep p (a, []) x).2) := by
  unfold scanStep
  by_cases hx : x ∈ a
  · simp [hx]
  · by_cases hp : p x <;> simp [hx, hp]

theorem scanFold_shift (p : Sig → Bool) (l : List Sig) :
    ∀ (a : Finset Sig) (b : List Sig),
      l.foldl (scanStep p) (a, b) =
        ((l.foldl (scanStep p) (a, [])).1,
         b ++ (l.foldl (scanStep p) (a, [])).2) := by
  induction l with
  | nil => intro a b; simp
  | cons x l ih =>
      intro a b
      have key : List.foldl (scanStep p) (scanStep p (a, []) x) l =
          ((List.foldl (scanStep p) ((scanStep p (a, []) x).1, []) l).1,
           (scanStep p (a, []) x).2 ++
             (List.foldl (scanStep p) ((scanStep p (a, []) x).1, []) l).2) :=
        ih ((scanStep p (a, []) x).1) ((scanStep p (a, []) x).2)
      simp only [List.foldl_cons]
      rw [scanStep_shift p a b x, ih, key]
      simp [List.append_assoc]

theorem scanOnce_mem_fst (p : Sig → Bool) (sigs : List Sig) :
    ∀ seen : Finset Sig, sigs.Nodup → ∀ x : Sig,
      (x ∈ (scanOnce p sigs seen).1 ↔ x ∈ seen ∨ (x ∈ sigs ∧ p x = true)) := by
  induction sigs with
  | nil => intro seen _ x; simp [scanOnce]
  | cons y l ih =>
      intro seen h x
      obtain ⟨hy, hl⟩ := List.nodup_cons.1 h
      have hfst : ∀ (a : Finset Sig) (b : List Sig),
          (List.foldl (scanStep p) (a, b) l).1 = (scanOnce p l a).1 := by
        intro a b; rw [scanFold_shift]; rfl
      show x ∈ (List.foldl (scanStep p) (scanStep p (seen, []) y) l).1 ↔ _
      by_cases hmem : y ∈ seen
      · rw [show scanStep p (seen, []) y = ((seen : Finset Sig), ([] : List Sig))
              from by simp [scanStep, hmem]]
        rw [hfst seen [], ih seen hl x]
        by_cases hxy : x = y
        · subst hxy
          simp [hmem]
        · simp [List.mem_cons, hxy]
      · by_cases hp : p y
        · rw [show scanStep p (seen, []) y = (insert y seen, [y])
                from by simp [scanStep, hmem, hp]]
          rw [hfst _ _, ih (insert y seen) hl x]
          by_cases hxy : x = y
          · subst hxy
            simp [hmem, hp, hy]
          · simp [List.mem_cons, hxy, Finset.mem_insert]
        · rw [show scanStep p (seen, []) y = (seen, [y])
                from by simp [scanStep, hmem, hp]]
          rw [hfst _ _, ih seen hl x]
          by_cases hxy : x = y
          · subst hxy
            simp [hmem, hy, hp]
          · simp [List.mem_cons, hxy]

theorem scanOnce_snd_eq (p : Sig → Bool) (sigs : List Sig) :
    ∀ seen : Finset Sig, sigs.Nodup →
      (scanOnce p sigs seen).2 = sigs.filter fun x => decide (x ∉ seen) := by
  induction sigs with
  | nil => intro seen _; simp [scanOnce]
  | cons y l ih =>
      intro seen h
      obtain ⟨hy, hl⟩ := List.nodup_cons.1 h
      have hsnd : ∀ (a : Finset Sig) (b : List Sig),
          (List.foldl (scanStep p) (a, b) l).2 = b ++ (scanOnce p l a).2 := by
        intro a b; rw [scanFold_shift]; rfl
      show (List.foldl (scanStep p) (scanStep p (seen, []) y) l).2 = _
      by_cases hmem : y ∈ seen
      · rw [show scanStep p (seen, []) y = ((seen : Finset Sig), ([] : List Sig))
              from by simp [scanStep, hmem]]
        rw [hsnd seen [], ih seen hl]
        simp [List.filter_cons, hmem]
      · have hcongr : ∀ t : Finset Sig, y ∉ t →
            (l.filter fun x => decide (x ∉ insert y t)) =
              l.filter fun x => decide (x ∉ t) := by
          intro t _
          apply List.filter_congr
          intro x hx
          have hxy : x ≠ y := fun e => hy (e ▸ hx)
          simp [Finset.mem_insert, hxy]
        by_cases hp : p y
        · rw [show scanStep p (seen, []) y = (insert y seen, [y])
                from by simp [scanStep, hmem, hp]]
          rw [hsnd _ _, ih (insert y seen) hl, hcongr seen hmem]
          simp [List.filter_cons, hmem]
        · rw [show scanStep p (seen, []) y = (seen, [y])
                from by simp [scanStep, hmem, hp]]
          rw [hsnd _ _, ih seen hl]
          simp [List.filter_cons, hmem]

/-- C2 counterexample: with one signature whose downstream processing
throws, the scan loop attempts it but does not insert it into the
seen-set (insertion happens only after success), and an identical later
re-scan attempts the very same signature a second time — contradicting
the claim that a signature is marked before processing, remains marked
on failure, and is never processed twice. -/
theorem dedup_marks_before_counterexample :
    (scanOnce (fun _ => false) ["s"] ∅).2 = ["s"] ∧
    (scanOnce (fun _ => false) ["s"] ∅).1 = ∅ ∧
    (scanOnce (fun _ => false) ["s"]
      (scanOnce (fun _ => false) ["s"] ∅).1).2 = ["s"] := by
  decide

/-- C2 (amended): a signature is inserted into the seen-set only after
its downstream processing completes successfully: over one scan the new
seen-set is the old one plus exactly the successfully processed listed
signatures, processing is attempted exactly on the listed signatures not
yet seen, and a signature whose processing failed is left unmarked and
is processed again by an identical re-scan. -/
theorem dedup_marks_after_success (p : Sig → Bool) (sigs : List Sig)
    (seen : Finset Sig) (h : sigs.Nodup) :
    (∀ x, x ∈ (scanOnce p sigs seen).1 ↔
      x ∈ seen ∨ (x ∈ sigs ∧ p x = true)) ∧
    ((scanOnce p sigs seen).2 = sigs.filter fun x => decide (x ∉ seen)) ∧
    (∀ x ∈ sigs, x ∉ seen → p x = false →
      x ∉ (scanOnce p sigs seen).1 ∧
      x ∈ (scanOnce p sigs (scanOnce p sigs seen).1).2) := by
  refine ⟨scanOnce_mem_fst p sigs seen h, scanOnce_snd_eq p sigs seen h, ?_⟩
  intro x hx hseen hp
  have hnot : x ∉ (scanOnce p sigs seen).1 := by
    rw [scanOnce_mem_fst p sigs seen h x]
    rintro (hc | ⟨-, hc⟩)
    · exact hseen hc
    · rw [hp] at hc
      exact Bool.noConfusion hc
  refine ⟨hnot, ?_⟩
  rw [scanOnce_snd_eq p sigs _ h]
  rw [List.mem_filter]
  exact ⟨hx, by simpa using hnot⟩

/-- Witness for C2 (amended): one succeeding and one failing signature. -/
theorem dedup_marks_after_success_witness :
    (∀ x, x ∈ (scanOnce (fun t => t == "ok") ["ok", "bad"] ∅).1 ↔
      x ∈ (∅ : Finset Sig) ∨ (x ∈ ["ok", "bad"] ∧ (x == "ok") = true)) ∧
    ((scanOnce (fun t => t == "ok") ["ok", "bad"] ∅).2 =
      ["ok", "bad"].filter fun x => decide (x ∉ (∅ : Finset Sig))) ∧
    (∀ x ∈ ["ok", "bad"], x ∉ (∅ : Finset Sig) → (x == "ok") = false →
      x ∉ (scanOnce (fun t => t == "ok") ["ok", "bad"] ∅).1 ∧
      x ∈ (scanOnce (fun t => t == "ok") ["ok", "bad"]
        (scanOnce (fun t => t == "ok") ["ok", "bad"] ∅).1).2) :=
  dedup_marks_after_success (fun t => t == "ok") ["ok", "bad"] ∅ (by decide)

theorem firstTruthyIdx_none (l : List (Option ℚ))
    (h : ∀ r ∈ l, jsTruthy r = false) : firstTruthyIdx l = none := by
  induction l with
  | nil => rfl
  | cons r rest ih =>
      have hr : jsTruthy r = false := h r (List.mem_cons_self r rest)
      rw [firstTruthyIdx, hr]
      simp only [Bool.false_eq_true, if_false]
      rw [ih fun q hq => h q (List.mem_cons_of_mem r hq)]
      rfl

theorem firstTruthyIdx_found (bad rest : List (Option ℚ)) (p : ℚ)
    (hbad : ∀ r ∈ bad, jsTruthy r = false) (hp : p ≠ 0) :
    firstTruthyIdx (bad ++ some p :: rest) = some (p, bad.length + 1) := by
  induction bad with
  | nil =>
      rw [List.nil_append, firstTruthyIdx, (jsTruthy_some p).2 hp]
      simp
  | cons r bad ih =>
      have hr : jsTruthy r = false := hbad r (List.mem_cons_self r bad)
      rw [List.cons_append, firstTruthyIdx, hr]
      simp only [Bool.false_eq_true, if_false]
      rw [ih fun q hq => hbad q (List.mem_cons_of_mem r hq)]
      simp [Nat.add_comm, Nat.add_assoc]

/-- C5 counterexample: with no price ever observed for the mint and all
four sources failing, `getPrice` returns the plain number 0 — the code
has no unknown marker distinct from zero (`return cached?.price || 0`). -/
theorem price_no_unknown_counterexample :
    (getPrice [none, none, none, none] 0 emptyPriceState "MintX").1 = 0 := by
  decide

/-- C5 (amended): when every source fails on a lookup, `getPrice`
returns the last cached price whenever one was ever observed — even when
the entry is older than the TTL — and returns the number 0 (not a
distinct unknown marker) when no price was ever observed. -/
theorem price_stale_fallback (sources : List (Option ℚ)) (now : ℕ)
    (s : PriceState) (mint : Mint)
    (hfail : ∀ r ∈ sources, jsTruthy r = false) :
    (∀ c, s.cache (normalizeMint mint) = some c →
      (getPrice sources now s mint).1 = c.price) ∧
    (s.cache (normalizeMint mint) = none →
      (getPrice sources now s mint).1 = 0) := by
  have hidx := firstTruthyIdx_none sources hfail
  constructor
  · intro c hc
    simp only [getPrice, hc]
    split
    · rfl
    · simp [priceChain, hidx]
  · intro hc
    simp only [getPrice, hc]
    simp [priceChain, hidx]

/-- Witness for C5 (amended): a cached price of 10 recorded at time 0,
looked up at time 1000000 (far beyond the 300000 ms TTL) with all four
sources failing, is still returned. -/
theorem price_stale_fallback_witness :
    (getPrice [none, none, none, none] 1000000 stalePriceState "M").1 = 10 ∧
    1000000 - 0 ≥ cacheDuration :=
  ⟨(price_stale_fallback [none, none, none, none] 1000000 stalePriceState "M"
      (by decide)).1 ⟨10, 0⟩ (by decide),
   by decide⟩

/-- C6 counterexample: a first source returning the non-positive number
-5 is accepted (JavaScript truthiness: `if (price)`), cached and
returned after invoking only that one source — the chain does not
continue to the second source returning 42, contradicting the claim that
a non-positive value is treated as failed. -/
theorem price_negative_accepted_counterexample :
    (getPrice [some (-5), some 42] 0 emptyPriceState "M").1 = -5 ∧
    (getPrice [some (-5), some 42] 0 emptyPriceState "M").2.2 = 1 ∧
    (-5 : ℚ) < 0 := by
  decide

/-- C6 (amended): on a cache miss `getPrice` attempts its sources in
order and returns the first JS-truthy outcome — any non-zero defined
number, negative values included; zero and undefined outcomes make the
chain continue.  The accepted value is cached with the current
timestamp after invoking exactly the sources up to and including the
successful one, and any later call for the same mint within the cache
TTL returns the cached value from the hit branch with no source
invoked. -/
theorem price_first_usable_chain (bad rest : List (Option ℚ)) (p : ℚ)
    (now : ℕ) (s : PriceState) (mint : Mint)
    (hbad : ∀ r ∈ bad, jsTruthy r = false) (hp : p ≠ 0)
    (hmiss : s.cache (normalizeMint mint) = none) :
    (getPrice (bad ++ some p :: rest) now s mint).1 = p ∧
    (getPrice (bad ++ some p :: rest) now s mint).2.1.cache
      (normalizeMint mint) = some ⟨p, now⟩ ∧
    (getPrice (bad ++ some p :: rest) now s mint).2.2 = bad.length + 1 ∧
    (∀ (sources2 : List (Option ℚ)) (now2 : ℕ), now2 - now < cacheDuration →
      getPrice sources2 now2
          (getPrice (bad ++ some p :: rest) now s mint).2.1 mint =
        (p, (getPrice (bad ++ some p :: rest) now s mint).2.1, 0)) := by
  have hidx := firstTruthyIdx_found bad rest p hbad hp
  have hg : getPrice (bad ++ some p :: rest) now s mint =
      (p, ⟨fun mm => if mm = normalizeMint mint then some ⟨p, now⟩
                     else s.cache mm⟩, bad.length + 1) := by
    simp only [getPrice, hmiss, priceChain, hidx]
  refine ⟨by rw [hg], by rw [hg]; simp, by rw [hg], ?_⟩
  intro sources2 now2 h2
  rw [hg]
  simp only [getPrice]
  simp [h2]

/-- Witness for C6 (amended): sources 1 and 2 fail, source 3 yields 42:
the call returns 42 after three source invocations and caches it; a
later call within the TTL returns 42 without invoking its sources. -/
theorem price_first_usable_chain_witness :
    (getPrice [none, none, some 42, some 7] 5 emptyPriceState "M").1 = 42 ∧
    (getPrice [none, none, some 42, some 7] 5 emptyPriceState "M").2.2 = 3 ∧
    getPrice [some 99] 6
        (getPrice [none, none, some 42, some 7] 5 emptyPriceState "M").2.1
        "M" =
      (42, (getPrice [none, none, some 42, some 7] 5 emptyPriceState "M").2.1,
       0) :=
  ⟨(price_first_usable_chain [none, none] [some 7] 42 5 emptyPriceState "M"
      (by decide) (by norm_num) (by decide)).1,
   (price_first_usable_chain [none, none] [some 7] 42 5 emptyPriceState "M"
      (by decide) (by norm_num) (by decide)).2.2.1,
   (price_first_usable_chain [none, none] [some 7] 42 5 emptyPriceState "M"
      (by decide) (by norm_num) (by decide)).2.2.2 [some 99] 6 (by decide)⟩

/-- C7 counterexample: in the primary resolver (part_003
`getTokenDetails`) with both the Jupiter strict-list request and the
on-chain lookup failing, the placeholder identity carries symbol
`"TOKEN"`, not `"UNKNOWN"` as claimed. -/
theorem token_placeholder_symbol_counterexample :
    getTokenDetails "MintX" none none =
      { address := "MintX", symbol := "TOKEN", name := "Unknown Token",
        decimals := 9, verified := false } ∧
    "TOKEN" ≠ "UNKNOWN" := by
  constructor
  · rfl
  · decide

/-- C7 (amended): token resolution never fails outright — every failure
path still returns an identity with decimals 9.  When every fallible
source fails, part_003's resolver returns the placeholder with symbol
"TOKEN", name "Unknown Token", decimals 9 and verified=false, while
part_002's enhanced resolver (for a mint that is neither a blue chip nor
a known scam) returns symbol "UNKNOWN", name "Unknown Token", decimals 9
and no verified field (its isScam flag is false). -/
theorem token_placeholder_total (mint : Mint) (scams : Finset Mint)
    (h1 : mint ∉ blueChips) (h2 : mint ∉ scams) :
    getTokenDetails mint none none =
      { address := mint, symbol := "TOKEN", name := "Unknown Token",
        decimals := 9, verified := false } ∧
    getTokenDetailsEnhanced mint scams none =
      { address := mint, symbol := "UNKNOWN", name := "Unknown Token",
        decimals := 9, isScam := false } ∧
    (∀ jup chain, (getTokenDetails mint jup chain).address = mint) := by
  have hsol : mint ≠ "So11111111111111111111111111111111111111112" := by
    intro e
    exact h1 (by rw [e]; simp [blueChips])
  refine ⟨?_, ?_, ?_⟩
  · simp [getTokenDetails, hsol]
  · simp [getTokenDetailsEnhanced, h1, h2]
  · intro jup chain
    by_cases hm : mint = "So11111111111111111111111111111111111111112"
    · exact absurd hm hsol
    · cases jup with
      | some j => simp [getTokenDetails, hm]
      | none =>
          cases chain with
          | some d => simp [getTokenDetails, hm]
          | none => simp [getTokenDetails, hm]

/-- Witness for C7 (amended): a concrete unknown mint. -/
theorem token_placeholder_total_witness :
    getTokenDetails "MintX" none none =
      { address := "MintX", symbol := "TOKEN", name := "Unknown Token",
        decimals := 9, verified := false } ∧
    getTokenDetailsEnhanced "MintX" ∅ none =
      { address := "MintX", symbol := "UNKNOWN", name := "Unknown Token",
        decimals := 9, isScam := false } ∧
    (∀ jup chain, (getTokenDetails "MintX" jup chain).address = "MintX") :=
  token_placeholder_total "MintX" ∅ (by decide) (by decide)

theorem swapChanges_go (pre : List TokenBalance) (wallet : Addr) :
    ∀ (post : List TokenBalance) (acc : List (Mint × ℚ)),
      (∀ b ∈ post, b.owner = wallet → ∀ e ∈ acc, e.1 ≠ b.mint) →
      (post.filterMap fun x =>
        if x.owner = wallet then some x.mint else none).Nodup →
      post.foldl
        (fun acc b =>
          if b.owner = wallet then
            if b.uiAmount.getD 0 - preLookupAmount pre b.mint wallet ≠ 0 then
              objSet acc b.mint
                (b.uiAmount.getD 0 - preLookupAmount pre b.mint wallet)
            else acc
          else acc) acc =
        acc ++ changedOf pre post wallet := by
  intro post
  induction post with
  | nil => intro acc _ _; simp [changedOf]
  | cons b rest ih =>
      intro acc hacc hnod
      simp only [List.foldl_cons]
      by_cases hown : b.owner = wallet
      · simp only [List.filterMap_cons, hown, eq_self_iff_true, if_true]
          at hnod
        obtain ⟨hbm, hnod2⟩ := List.nodup_cons.1 hnod
        by_cases hd : b.uiAmount.getD 0 - preLookupAmount pre b.mint wallet ≠ 0
        · have hobj : objSet acc b.mint
              (b.uiAmount.getD 0 - preLookupAmount pre b.mint wallet) =
              acc ++ [(b.mint,
                b.uiAmount.getD 0 - preLookupAmount pre b.mint wallet)] := by
            rw [objSet, if_neg]
            simp only [List.any_eq_true, not_exists, not_and]
            intro e he
            simp [hacc b (List.mem_cons_self b rest) hown e he]
          have hnew : ∀ c ∈ rest, c.owner = wallet →
              ∀ e ∈ acc ++ [(b.mint,
                b.uiAmount.getD 0 - preLookupAmount pre b.mint wallet)],
              e.1 ≠ c.mint := by
            intro c hc hcown e he
            rcases List.mem_append.1 he with he | he
            · exact hacc c (List.mem_cons_of_mem b hc) hcown e he
            · rcases List.mem_singleton.1 he with rfl
              intro hmeq
              exact hbm (List.mem_filterMap.2 ⟨c, hc, by simp [hcown, ← hmeq]⟩)
          rw [if_pos hown, if_pos hd, hobj,
            ih (acc ++ [(b.mint,
              b.uiAmount.getD 0 - preLookupAmount pre b.mint wallet)])
              hnew hnod2]
          simp [changedOf, List.filterMap_cons, hown, hd]
        · rw [if_pos hown, if_neg hd,
            ih acc (fun c hc hcown e he =>
              hacc c (List.mem_cons_of_mem b hc) hcown e he) hnod2]
          simp [changedOf, List.filterMap_cons, hown, hd]
      · have hnod2 : (rest.filterMap fun x =>
            if x.owner = wallet then some x.mint else none).Nodup := by
          simpa [List.filterMap_cons, hown] using hnod
        rw [if_neg hown,
          ih acc (fun c hc hcown e he =>
            hacc c (List.mem_cons_of_mem b hc) hcown e he) hnod2]
        simp [changedOf, List.filterMap_cons, hown]

theorem swapChanges_eq_changedOf (pre post : List TokenBalance)
    (wallet : Addr)
    (hpost : (post.filterMap fun x =>
      if x.owner = wallet then some x.mint else none).Nodup) :
    swapChanges pre post wallet = changedOf pre post wallet :=
  swapChanges_go pre wallet post []
    (fun _ _ _ e he => absurd he (List.not_mem_nil e)) hpost

/-- C3 counterexample: a transaction in which three mints owned by the
wallet changed balance between the snapshots (A: 100→80, B: 50→70,
C: 10→gone, i.e. 0) still produces a Swap event, because the code walks
only the post snapshot and never sees the pre-only mint C — the claim's
"three-plus changed mints yield no Swap event" is false as stated. -/
theorem swap_three_mints_counterexample :
    detectSwapsCore
      [⟨"A", "W", some 100⟩, ⟨"B", "W", some 50⟩, ⟨"C", "W", some 10⟩]
      [⟨"A", "W", some 80⟩, ⟨"B", "W", some 70⟩] "W" =
      some ⟨"A", 20, "B", 20⟩ ∧
    (changedMintsSym
      [⟨"A", "W", some 100⟩, ⟨"B", "W", some 50⟩, ⟨"C", "W", some 10⟩]
      [⟨"A", "W", some 80⟩, ⟨"B", "W", some 70⟩] "W").card = 3 := by
  constructor
  · norm_num +decide [detectSwapsCore, swapChanges, preLookupAmount, objSet,
      abs_of_neg, abs_of_pos]
  · decide

/-- C3 (amended): restricted to the mints carrying an entry in the post
snapshot owned by the wallet (mints appearing only in the pre snapshot
are ignored; a missing pre entry counts as balance zero), and provided
those post entries have pairwise distinct mints, the classifier equals
the declarative rule: exactly one Swap event iff exactly two such mints
changed by a non-zero amount with opposite signs, the strictly
decreasing mint sold with the absolute decrease as soldAmount, the
strictly increasing one bought; every other pattern yields none. -/
theorem detectSwaps_eq_spec (pre post : List TokenBalance) (wallet : Addr)
    (hpost : (post.filterMap fun x =>
      if x.owner = wallet then some x.mint else none).Nodup) :
    detectSwapsCore pre post wallet = classifySwapSpec pre post wallet := by
  rw [detectSwapsCore, classifySwapSpec,
    swapChanges_eq_changedOf pre post wallet hpost]
  rcases changedOf pre post wallet with - | ⟨⟨ma, ca⟩, - | ⟨⟨mb, cb⟩, - | ⟨f, r3⟩⟩⟩
  · rfl
  · rfl
  · dsimp only
    by_cases h1 : 0 < ca ∧ cb < 0
    · have h2 : ¬(ca < 0 ∧ 0 < cb) := fun hh => lt_asymm h1.1 hh.1
      rw [if_pos h1, if_neg h2, if_pos h1, abs_of_neg h1.2, abs_of_pos h1.1]
    · by_cases h2 : ca < 0 ∧ 0 < cb
      · rw [if_neg h1, if_pos h2, if_pos h2, abs_of_neg h2.1, abs_of_pos h2.2]
      · simp [h1, h2]
  · rfl

/-- Witness for C3 (amended) at the spec's own example: pre balances
A:100, B:50 and post balances A:80, B:70 classify as selling 20 A and
buying 20 B, agreeing with the declarative rule. -/
theorem detectSwaps_eq_spec_witness :
    detectSwapsCore [⟨"A", "W", some 100⟩, ⟨"B", "W", some 50⟩]
      [⟨"A", "W", some 80⟩, ⟨"B", "W", some 70⟩] "W" =
      classifySwapSpec [⟨"A", "W", some 100⟩, ⟨"B", "W", some 50⟩]
        [⟨"A", "W", some 80⟩, ⟨"B", "W", some 70⟩] "W" ∧
    detectSwapsCore [⟨"A", "W", some 100⟩, ⟨"B", "W", some 50⟩]
      [⟨"A", "W", some 80⟩, ⟨"B", "W", some 70⟩] "W" =
      some ⟨"A", 20, "B", 20⟩ :=
  ⟨detectSwaps_eq_spec _ _ "W" (by decide), by
    norm_num +decide [detectSwapsCore, swapChanges, preLookupAmount, objSet,
      abs_of_neg, abs_of_pos]⟩

/-- C4 counterexample: a classified swap selling 60 A for 10 B where A's
price is unknown (the service's sentinel 0) and B's price is known
(600): the claim's fallback valuation gives 10 × 600 = 6000, above the
5000 threshold, yet the code values only the sold leg (60 × 0 = 0) and
emits no alert — there is no fallback to the bought leg. -/
theorem swap_no_bought_fallback_counterexample :
    detectSwapsCore [⟨"A", "W", some 100⟩]
      [⟨"A", "W", some 40⟩, ⟨"B", "W", some 10⟩] "W" =
      some ⟨"A", 60, "B", 10⟩ ∧
    detectSwapsAlert [⟨"A", "W", some 100⟩]
      [⟨"A", "W", some 40⟩, ⟨"B", "W", some 10⟩] "W"
      (fun m => if m = "B" then (600 : ℚ) else 0) = none ∧
    claimSwapUsd ⟨"A", 60, "B", 10⟩
      (fun m => if m = "B" then some (600 : ℚ) else none) = some 6000 ∧
    (5000 : ℚ) ≤ 6000 := by
  refine ⟨?_, ?_, ?_, by norm_num⟩
  · norm_num +decide [detectSwapsCore, swapChanges, preLookupAmount, objSet,
      abs_of_neg, abs_of_pos]
  · norm_num +decide [detectSwapsAlert, detectSwapsCore, swapChanges,
      preLookupAmount, objSet, abs_of_neg, abs_of_pos]
  · norm_num +decide [claimSwapUsd]

/-- C4 (amended): the USD value used for the swap threshold always equals
abs(soldAmount) times the price of the sold leg (with 0 standing for an
unknown price); there is no fallback to the bought leg.  An alert is
emitted exactly when that sold-leg value reaches the 5000 threshold, and
when the sold leg's price is unknown (0) no alert is emitted regardless
of the bought leg's price. -/
theorem swap_threshold_sold_leg (pre post : List TokenBalance)
    (wallet : Addr) (priceOf : Mint → ℚ) :
    (∀ a, detectSwapsAlert pre post wallet priceOf = some a →
      a.usdValue = a.soldAmount * priceOf a.soldMint ∧
      5000 ≤ a.usdValue ∧
      detectSwapsCore pre post wallet =
        some ⟨a.soldMint, a.soldAmount, a.boughtMint, a.boughtAmount⟩) ∧
    (∀ sw, detectSwapsCore pre post wallet = some sw →
      sw.soldAmount * priceOf sw.soldMint < 5000 →
      detectSwapsAlert pre post wallet priceOf = none) ∧
    (∀ sw, detectSwapsCore pre post wallet = some sw →
      priceOf sw.soldMint = 0 →
      detectSwapsAlert pre post wallet priceOf = none) := by
  refine ⟨?_, ?_, ?_⟩
  · intro a ha
    rw [detectSwapsAlert] at ha
    cases hcore : detectSwapsCore pre post wallet with
    | none => rw [hcore] at ha; exact Option.noConfusion ha
    | some sw =>
        rw [hcore, Option.some_bind] at ha
        by_cases husd : sw.soldAmount * priceOf sw.soldMint < 5000
        · rw [if_pos husd] at ha
          exact Option.noConfusion ha
        · rw [if_neg husd] at ha
          obtain rfl := Option.some.inj ha
          exact ⟨rfl, not_lt.1 husd, rfl⟩
  · intro sw hcore husd
    rw [detectSwapsAlert, hcore, Option.some_bind, if_pos husd]
  · intro sw hcore hzero
    rw [detectSwapsAlert, hcore, Option.some_bind, hzero, mul_zero,
      if_pos (by norm_num)]

/-- Witness for C4 (amended): selling 60 A priced at 100 — the alert's
USD value is the sold leg's 6000 and it crosses the threshold. -/
theorem swap_threshold_sold_leg_witness :
    (6000 : ℚ) = 60 * (if ("A" : Mint) = "A" then (100 : ℚ) else 0) ∧
    (5000 : ℚ) ≤ 6000 ∧
    detectSwapsCore [⟨"A", "W", some 100⟩]
      [⟨"A", "W", some 40⟩, ⟨"B", "W", some 10⟩] "W" =
      some ⟨"A", 60, "B", 10⟩ :=
  (swap_threshold_sold_leg [⟨"A", "W", some 100⟩]
    [⟨"A", "W", some 40⟩, ⟨"B", "W", some 10⟩] "W"
    (fun m => if m = "A" then (100 : ℚ) else 0)).1
    ⟨"A", 60, "B", 10, 6000⟩
    (by norm_num +decide [detectSwapsAlert, detectSwapsCore, swapChanges,
      preLookupAmount, objSet, abs_of_neg, abs_of_pos])
